import Mathlib

/-!
Verification of the Rakshak-ai monitoring server against its specification.

Each Python function relevant to the checked properties is shallowly embedded
as an executable Lean definition; machine integers are modelled as `Int`/`Nat`,
wall-clock instants as integer epoch seconds, MongoDB collections as lists of
documents, and fallible paths as `Option`/`Except`.
-/

namespace Rakshak

/-! ## Priority derivation (app.py `get_priority`, models_mongodb.py `AlertDocument.create`) -/

/-- Embedding of `get_priority` from app.py: maps a confidence score to the
four-level priority label. -/
def get_priority (confidence : Int) : String :=
  if confidence ≥ 90 then "critical"
  else if confidence ≥ 75 then "high"
  else if confidence ≥ 60 then "medium"
  else "low"

/-- An alert document as built by `AlertDocument.create` (models_mongodb.py).
Timestamps are epoch seconds. -/
structure AlertDoc where
  attack_type : String
  url : String
  src_ip : String
  dst_ip : String
  http_method : String
  params : String
  user_agent : String
  confidence : Int
  raw : String
  timestamp : Int
  status : String
  priority : String
  notes : String
  deriving Repr, DecidableEq

/-- Embedding of `AlertDocument.create` (models_mongodb.py).  `now` stands for
`datetime.utcnow()`; `timestamp = none` and `priority = none` play the role of
the Python `None` defaults.  The confidence→priority derivation is inlined
exactly as in the source (independently of `get_priority`). -/
def AlertDocument.create (now : Int) (attack_type url src_ip : String)
    (confidence : Int) (raw dst_ip http_method params user_agent : String)
    (timestamp : Option Int) (status : String) (priority : Option String)
    (notes : String) : AlertDoc :=
  let p :=
    match priority with
    | some p => p
    | none =>
      if confidence ≥ 90 then "critical"
      else if confidence ≥ 75 then "high"
      else if confidence ≥ 60 then "medium"
      else "low"
  { attack_type := attack_type
    url := url
    src_ip := src_ip
    dst_ip := dst_ip
    http_method := http_method
    params := params
    user_agent := user_agent
    confidence := confidence
    raw := raw
    timestamp := timestamp.getD now
    status := status
    priority := p
    notes := notes }

/-- **C1.** For every alert created without an explicitly supplied priority,
the derived priority is exactly: confidence 90–100 → `"critical"`,
75–89 → `"high"`, 60–74 → `"medium"`, 0–59 → `"low"`; the boundary pairs
89/90, 74/75 and 59/60 switch category exactly at the boundary, and the same
derivation is computed by `AlertDocument.create` and by the server's
`get_priority`. -/
theorem priority_derivation_correct (c : Int) (hc0 : 0 ≤ c) (hc1 : c ≤ 100) :
    ((90 ≤ c → get_priority c = "critical") ∧
     (75 ≤ c ∧ c ≤ 89 → get_priority c = "high") ∧
     (60 ≤ c ∧ c ≤ 74 → get_priority c = "medium") ∧
     (c ≤ 59 → get_priority c = "low")) ∧
    (get_priority 89 = "high" ∧ get_priority 90 = "critical" ∧
     get_priority 74 = "medium" ∧ get_priority 75 = "high" ∧
     get_priority 59 = "low" ∧ get_priority 60 = "medium") ∧
    (∀ now at_ url ip raw dst m ps ua ts st notes,
      (AlertDocument.create now at_ url ip c raw dst m ps ua ts st none
        notes).priority = get_priority c) := by
  refine ⟨⟨?_, ?_, ?_, ?_⟩, ⟨by decide, by decide, by decide, by decide, by decide, by decide⟩, ?_⟩
  · intro h
    simp only [get_priority, if_pos h]
  · rintro ⟨h75, h89⟩
    have h90 : ¬ (90 ≤ c) := by omega
    simp only [get_priority, if_neg h90, if_pos h75]
  · rintro ⟨h60, h74⟩
    have h90 : ¬ (90 ≤ c) := by omega
    have h75 : ¬ (75 ≤ c) := by omega
    simp only [get_priority, if_neg h90, if_neg h75, if_pos h60]
  · intro h59
    have h90 : ¬ (90 ≤ c) := by omega
    have h75 : ¬ (75 ≤ c) := by omega
    have h60 : ¬ (60 ≤ c) := by omega
    simp only [get_priority, if_neg h90, if_neg h75, if_neg h60]
  · intro now at_ url ip raw dst m ps ua ts st notes
    simp only [AlertDocument.create, get_priority]

/-! ## Auto-block policy (app.py `should_auto_block`, `check_ip_blocked`,
`check_ip_whitelisted`; models_mongodb.py `BlocklistDocument.create`) -/

/-- A blocklist document (models_mongodb.py `BlocklistDocument`). -/
structure BlockEntry where
  ip : String
  reason : String
  auto_blocked : Bool
  attack_count : Nat
  is_active : Bool
  deriving Repr, DecidableEq

/-- Embedding of `BlocklistDocument.create`: `is_active` starts `true`. -/
def BlocklistDocument.create (ip reason : String) (auto_blocked : Bool)
    (attack_count : Nat) : BlockEntry :=
  { ip := ip
    reason := reason
    auto_blocked := auto_blocked
    attack_count := attack_count
    is_active := true }

/-- A whitelist document (models_mongodb.py `WhitelistDocument`). -/
structure WhiteEntry where
  ip : String
  reason : String
  is_active : Bool
  deriving Repr, DecidableEq

/-- The document-store state visible to the server's policy functions:
the `alerts`, `blocklist` and `whitelist` collections. -/
structure DB where
  alerts : List AlertDoc
  blocklist : List BlockEntry
  whitelist : List WhiteEntry
  deriving Repr, DecidableEq

/-- Embedding of `check_ip_blocked` (app.py): an active blocklist entry
exists for a non-empty IP. -/
def check_ip_blocked (db : DB) (ip : String) : Bool :=
  if ip = "" then false
  else db.blocklist.any fun b => b.ip == ip && b.is_active

/-- Embedding of `check_ip_whitelisted` (app.py). -/
def check_ip_whitelisted (db : DB) (ip : String) : Bool :=
  if ip = "" then false
  else db.whitelist.any fun w => w.ip == ip && w.is_active

/-- The alert count computed inside `should_auto_block`: alerts for `ip`
whose timestamp is at least `now - windowHours·3600`. -/
def auto_block_attack_count (windowHours now : Int) (db : DB) (ip : String) : Nat :=
  (db.alerts.filter fun a =>
    a.src_ip == ip && decide (now - windowHours * 3600 ≤ a.timestamp)).length

/-- The reason string built by `should_auto_block`. -/
def auto_block_reason (attack_count : Nat) (windowHours : Int) : String :=
  "Auto-blocked after " ++ toString attack_count ++ " attacks in " ++
    toString windowHours ++ " hour(s)"

/-- Outcome of one `should_auto_block` evaluation: the updated store, the
socket events whose broadcast was attempted, and the returned boolean. -/
structure AutoBlockResult where
  db : DB
  events : List String
  blocked : Bool
  deriving Repr, DecidableEq

/-- The per-document effect of the reactivation `update_one` in
`should_auto_block`: set `is_active = true` and refresh `attack_count` on the
document whose `ip` matches. -/
def reactivate_update (ip : String) (attack_count : Nat) (b : BlockEntry) : BlockEntry :=
  if b.ip == ip then { b with is_active := true, attack_count := attack_count } else b

/-- Embedding of `should_auto_block` (app.py).  `threshold` is
`AUTO_BLOCK_THRESHOLD`, `windowHours` is `AUTO_BLOCK_WINDOW_HOURS`, `now`
stands for `datetime.utcnow()`.  The `ip_blocked` emit is attempted only on
the insert branch; the reactivation branch updates the entry and returns
`true` without emitting. -/
def should_auto_block (threshold : Nat) (windowHours now : Int) (db : DB)
    (ip : String) : AutoBlockResult :=
  if ip = "" ∨ check_ip_whitelisted db ip then ⟨db, [], false⟩
  else
    let attack_count := auto_block_attack_count windowHours now db ip
    if threshold ≤ attack_count then
      match db.blocklist.find? (fun b => b.ip == ip) with
      | none =>
        let block_doc := BlocklistDocument.create ip
          (auto_block_reason attack_count windowHours) true attack_count
        ⟨{ db with blocklist := db.blocklist ++ [block_doc] }, ["ip_blocked"], true⟩
      | some existing =>
        if existing.is_active = false then
          ⟨{ db with blocklist := db.blocklist.map (reactivate_update ip attack_count) },
            [], true⟩
        else ⟨db, [], false⟩
    else ⟨db, [], false⟩

/-- **C2.** For a non-whitelisted, non-empty IP whose trailing-window alert
count meets the threshold, `should_auto_block`: inserts a `BlocklistDocument`
with `auto_blocked = true` and the computed attack count when no entry exists;
reactivates (and refreshes the count of) an existing inactive entry; takes no
action when an active entry exists — and never produces a duplicate entry for
the IP. -/
theorem auto_block_policy_correct (threshold : Nat) (windowHours now : Int)
    (db : DB) (ip : String) (hip : ip ≠ "")
    (hw : check_ip_whitelisted db ip = false)
    (hcount : threshold ≤ auto_block_attack_count windowHours now db ip) :
    (db.blocklist.find? (fun b => b.ip == ip) = none →
      (should_auto_block threshold windowHours now db ip).db.blocklist =
        db.blocklist ++ [BlocklistDocument.create ip
          (auto_block_reason (auto_block_attack_count windowHours now db ip) windowHours)
          true (auto_block_attack_count windowHours now db ip)] ∧
      (should_auto_block threshold windowHours now db ip).blocked = true) ∧
    (∀ e, db.blocklist.find? (fun b => b.ip == ip) = some e → e.is_active = false →
      (should_auto_block threshold windowHours now db ip).db.blocklist =
        db.blocklist.map
          (reactivate_update ip (auto_block_attack_count windowHours now db ip)) ∧
      (should_auto_block threshold windowHours now db ip).blocked = true) ∧
    (∀ e, db.blocklist.find? (fun b => b.ip == ip) = some e → e.is_active = true →
      (should_auto_block threshold windowHours now db ip) = ⟨db, [], false⟩) ∧
    ((db.blocklist.countP (fun b => b.ip == ip)) ≤ 1 →
      (should_auto_block threshold windowHours now db ip).db.blocklist.countP
        (fun b => b.ip == ip) ≤ 1) := by
  have hnone_case : db.blocklist.find? (fun b => b.ip == ip) = none →
      should_auto_block threshold windowHours now db ip =
        ⟨{ db with blocklist := db.blocklist ++ [BlocklistDocument.create ip
            (auto_block_reason (auto_block_attack_count windowHours now db ip) windowHours)
            true (auto_block_attack_count windowHours now db ip)] },
          ["ip_blocked"], true⟩ := by
    intro hnone
    simp [should_auto_block, hip, hw, hcount, hnone]
  have hreact_case : ∀ e, db.blocklist.find? (fun b => b.ip == ip) = some e →
      e.is_active = false →
      should_auto_block threshold windowHours now db ip =
        ⟨{ db with blocklist := db.blocklist.map (reactivate_update ip (auto_block_attack_count windowHours now db ip)) },
          [], true⟩ := by
    intro e he hact
    simp [should_auto_block, hip, hw, hcount, he, hact]
  have hactive_case : ∀ e, db.blocklist.find? (fun b => b.ip == ip) = some e →
      e.is_active = true →
      should_auto_block threshold windowHours now db ip = ⟨db, [], false⟩ := by
    intro e he hact
    simp [should_auto_block, hip, hw, hcount, he, hact]
  refine ⟨?_, ?_, ?_, ?_⟩
  · intro hnone
    rw [hnone_case hnone]
    exact ⟨rfl, rfl⟩
  · intro e he hact
    rw [hreact_case e he hact]
    exact ⟨rfl, rfl⟩
  · intro e he hact
    exact hactive_case e he hact
  · intro hone
    cases hfind : db.blocklist.find? (fun b => b.ip == ip) with
    | none =>
      have hzero : db.blocklist.countP (fun b => b.ip == ip) = 0 :=
        List.countP_eq_zero.mpr (fun b hb => by
          simpa using List.find?_eq_none.mp hfind b hb)
      rw [hnone_case hfind]
      show (db.blocklist ++ [BlocklistDocument.create ip
        (auto_block_reason (auto_block_attack_count windowHours now db ip) windowHours)
        true (auto_block_attack_count windowHours now db ip)]).countP
          (fun b => b.ip == ip) ≤ 1
      rw [List.countP_append, hzero]
      simp [BlocklistDocument.create]
    | some e =>
      cases hact : e.is_active with
      | false =>
        rw [hreact_case e hfind hact]
        show (db.blocklist.map
            (reactivate_update ip (auto_block_attack_count windowHours now db ip))).countP
            (fun b => b.ip == ip) ≤ 1
        rw [List.countP_map]
        have hcong : List.countP ((fun b => b.ip == ip) ∘
              reactivate_update ip (auto_block_attack_count windowHours now db ip))
              db.blocklist
            = List.countP (fun b => b.ip == ip) db.blocklist := by
          apply List.countP_congr
          intro b _
          by_cases hb : b.ip = ip <;>
            simp [Function.comp, reactivate_update, hb]
        rw [hcong]
        exact hone
      | true =>
        rw [hactive_case e hfind hact]
        exact hone

/-- Witness for `auto_block_policy_correct`: five fresh alerts from
`203.0.113.7`, empty blocklist and whitelist, threshold 5, 1-hour window. -/
theorem auto_block_policy_correct_witness :
    ("203.0.113.7" : String) ≠ "" ∧
    check_ip_whitelisted
      ⟨List.replicate 5 (AlertDocument.create 7200 "sqli" "/a" "203.0.113.7" 95 "r" "" "" "" "" none "new" none ""),
       [], []⟩ "203.0.113.7" = false ∧
    5 ≤ auto_block_attack_count 1 7200
      ⟨List.replicate 5 (AlertDocument.create 7200 "sqli" "/a" "203.0.113.7" 95 "r" "" "" "" "" none "new" none ""),
       [], []⟩ "203.0.113.7" ∧
    (should_auto_block 5 1 7200
      ⟨List.replicate 5 (AlertDocument.create 7200 "sqli" "/a" "203.0.113.7" 95 "r" "" "" "" "" none "new" none ""),
       [], []⟩ "203.0.113.7").blocked = true := by
  refine ⟨by decide, by decide, by decide, ?_⟩
  have h := auto_block_policy_correct 5 1 7200
    ⟨List.replicate 5 (AlertDocument.create 7200 "sqli" "/a" "203.0.113.7" 95 "r" "" "" "" "" none "new" none ""),
     [], []⟩ "203.0.113.7" (by decide) (by decide) (by decide)
  exact (h.1 (by decide)).2

/-- **C3 counterexample.**  A reactivation changes block state
(`blocked = true`) yet attempts no `ip_blocked` broadcast: with an existing
inactive entry for `198.51.100.9` and five fresh alerts, `should_auto_block`
returns `true` with an empty event list. -/
theorem auto_block_reactivation_broadcasts_nothing :
    (should_auto_block 5 1 7200
      ⟨List.replicate 5 (AlertDocument.create 7000 "xss" "/b" "198.51.100.9" 85 "r" "" "" "" "" none "new" none ""),
       [⟨"198.51.100.9", "old block", true, 7, false⟩], []⟩
      "198.51.100.9").blocked = true ∧
    (should_auto_block 5 1 7200
      ⟨List.replicate 5 (AlertDocument.create 7000 "xss" "/b" "198.51.100.9" 85 "r" "" "" "" "" none "new" none ""),
       [⟨"198.51.100.9", "old block", true, 7, false⟩], []⟩
      "198.51.100.9").events = [] := by
  constructor
  · decide
  · decide

/-- **C3 (amended).**  The auto-block policy attempts an `ip_blocked`
broadcast exactly when it newly creates a Blocklist-Entry; when it merely
reactivates an existing (inactive) entry — or leaves an active entry alone —
no event is emitted. -/
theorem auto_block_event_on_insert_only (threshold : Nat) (windowHours now : Int)
    (db : DB) (ip : String) (hip : ip ≠ "")
    (hw : check_ip_whitelisted db ip = false)
    (hcount : threshold ≤ auto_block_attack_count windowHours now db ip) :
    (db.blocklist.find? (fun b => b.ip == ip) = none →
      (should_auto_block threshold windowHours now db ip).events = ["ip_blocked"]) ∧
    (∀ e, db.blocklist.find? (fun b => b.ip == ip) = some e →
      (should_auto_block threshold windowHours now db ip).events = []) := by
  refine ⟨?_, ?_⟩
  · intro hnone
    simp [should_auto_block, hip, hw, hcount, hnone]
  · intro e he
    cases hact : e.is_active with
    | false => simp [should_auto_block, hip, hw, hcount, he, hact]
    | true => simp [should_auto_block, hip, hw, hcount, he, hact]

/-- Witness for `auto_block_event_on_insert_only`: the reactivation store of
the counterexample, where the policy changes state without emitting. -/
theorem auto_block_event_on_insert_only_witness :
    ("198.51.100.9" : String) ≠ "" ∧
    check_ip_whitelisted
      ⟨List.replicate 5 (AlertDocument.create 7000 "xss" "/b" "198.51.100.9" 85 "r" "" "" "" "" none "new" none ""),
       [⟨"198.51.100.9", "old block", true, 7, false⟩], []⟩ "198.51.100.9" = false ∧
    5 ≤ auto_block_attack_count 1 7200
      ⟨List.replicate 5 (AlertDocument.create 7000 "xss" "/b" "198.51.100.9" 85 "r" "" "" "" "" none "new" none ""),
       [⟨"198.51.100.9", "old block", true, 7, false⟩], []⟩ "198.51.100.9" ∧
    (should_auto_block 5 1 7200
      ⟨List.replicate 5 (AlertDocument.create 7000 "xss" "/b" "198.51.100.9" 85 "r" "" "" "" "" none "new" none ""),
       [⟨"198.51.100.9", "old block", true, 7, false⟩], []⟩ "198.51.100.9").events = [] := by
  refine ⟨by decide, by decide, by decide, ?_⟩
  exact (auto_block_event_on_insert_only 5 1 7200
    ⟨List.replicate 5 (AlertDocument.create 7000 "xss" "/b" "198.51.100.9" 85 "r" "" "" "" "" none "new" none ""),
     [⟨"198.51.100.9", "old block", true, 7, false⟩], []⟩ "198.51.100.9"
    (by decide) (by decide) (by decide)).2
    ⟨"198.51.100.9", "old block", true, 7, false⟩ (by decide)

/-! ## Geolocation lookup (ip_services.py `get_ip_geolocation`) -/

/-- The geolocation payload returned to callers of `get_ip_geolocation`.
Coordinates are opaque here (the claims never inspect them). -/
structure GeoData where
  country : String
  city : String
  latitude : Option Int
  longitude : Option Int
  country_code : String
  deriving Repr, DecidableEq

/-- A row of the `ip_geolocation` cache collection. -/
structure GeoCacheRow where
  ip : String
  country : String
  city : String
  latitude : Option Int
  longitude : Option Int
  country_code : String
  last_updated : Int
  deriving Repr, DecidableEq

/-- The dictionary built from a cache row on every cached-return path of
`get_ip_geolocation`. -/
def geo_from_cache (c : GeoCacheRow) : GeoData :=
  { country := c.country
    city := c.city
    latitude := c.latitude
    longitude := c.longitude
    country_code := c.country_code }

/-- The cache document upserted after a successful (HTTP 200) API call. -/
def geo_cache_doc (ip : String) (d : GeoData) (now : Int) : GeoCacheRow :=
  { ip := ip
    country := d.country
    city := d.city
    latitude := d.latitude
    longitude := d.longitude
    country_code := d.country_code
    last_updated := now }

/-- Outcome of the `requests.get` call to the geolocation API: an HTTP
response with a status code (body parsed into `GeoData` when the code is
200), a raised timeout, or another raised error. -/
inductive ApiOutcome where
  | response (status_code : Nat) (data : GeoData)
  | timeout
  | exn
  deriving Repr, DecidableEq

/-- `GEO_CACHE_DAYS` from ip_services.py. -/
def GEO_CACHE_DAYS : Int := 7

/-- Age of a cache row in whole days, as Python's `timedelta.days`
(floor division of the elapsed seconds by 86400). -/
def cache_age_days (now last_updated : Int) : Int :=
  Int.fdiv (now - last_updated) 86400

/-- The API-call section of `get_ip_geolocation` (the `try` block from the
`requests.get` on): on 200 upsert and return fresh data; on 429 return the
cached row if one exists; on any other status fall through to `return None`;
on a timeout or other raised error return the cached row if one exists. -/
def geo_api_call (now : Int) (cached : Option GeoCacheRow) (ip : String)
    (api : ApiOutcome) : Option GeoData × Option GeoCacheRow :=
  match api with
  | .response status_code d =>
    if status_code = 200 then (some d, some (geo_cache_doc ip d now))
    else if status_code = 429 then
      match cached with
      | some c => (some (geo_from_cache c), cached)
      | none => (none, cached)
    else (none, cached)
  | .timeout =>
    match cached with
    | some c => (some (geo_from_cache c), cached)
    | none => (none, cached)
  | .exn =>
    match cached with
    | some c => (some (geo_from_cache c), cached)
    | none => (none, cached)

/-- Embedding of `get_ip_geolocation` (ip_services.py).  `valid_ip` is the
result of `is_valid_ip` (syntactic IP parsing, an external facility);
`cached` is the `find_one` result; `api` is the outcome of the outbound HTTP
call.  Returns the value handed to the caller and the cache row afterwards. -/
def get_ip_geolocation (valid_ip : Bool) (now : Int) (cached : Option GeoCacheRow)
    (ip : String) (api : ApiOutcome) : Option GeoData × Option GeoCacheRow :=
  if valid_ip = false then (none, cached)
  else
    match cached with
    | some c =>
      if cache_age_days now c.last_updated < GEO_CACHE_DAYS then
        (some (geo_from_cache c), cached)
      else geo_api_call now cached ip api
    | none => geo_api_call now cached ip api

/-- **C4 counterexample.**  A 10-day-old cache row for a valid IP triggers a
refresh; when the refresh fails with HTTP 503 (a non-success status other
than 429) the lookup returns an absent result, not the stale cached value. -/
theorem geo_stale_dropped_on_http_error :
    GEO_CACHE_DAYS ≤ cache_age_days 864000 0 ∧
    (get_ip_geolocation true 864000
      (some ⟨"203.0.113.5", "Testland", "Testville", none, none, "TL", 0⟩)
      "203.0.113.5"
      (.response 503 ⟨"", "", none, none, ""⟩)).fst = none := by
  constructor
  · decide
  · decide

/-- **C4 (amended).**  For a valid IP with a stale (≥ 7 days) cache row, a
lookup attempts a refresh; the stale value is returned when the refresh
raises a timeout or another error or answers HTTP 429, and fresh data is
returned on HTTP 200 — but any other HTTP status yields an absent result.
No failure is raised to the caller in any case. -/
theorem geo_stale_refresh_fallback (now : Int) (c : GeoCacheRow) (ip : String)
    (d : GeoData) (code : Nat)
    (hstale : GEO_CACHE_DAYS ≤ cache_age_days now c.last_updated) :
    (get_ip_geolocation true now (some c) ip .timeout).fst =
      some (geo_from_cache c) ∧
    (get_ip_geolocation true now (some c) ip .exn).fst =
      some (geo_from_cache c) ∧
    (get_ip_geolocation true now (some c) ip (.response 429 d)).fst =
      some (geo_from_cache c) ∧
    (get_ip_geolocation true now (some c) ip (.response 200 d)).fst = some d ∧
    (code ≠ 200 → code ≠ 429 →
      (get_ip_geolocation true now (some c) ip (.response code d)).fst = none) := by
  have hfresh : ¬ (cache_age_days now c.last_updated < GEO_CACHE_DAYS) :=
    not_lt.mpr hstale
  refine ⟨?_, ?_, ?_, ?_, ?_⟩
  · simp [get_ip_geolocation, hfresh, geo_api_call]
  · simp [get_ip_geolocation, hfresh, geo_api_call]
  · simp [get_ip_geolocation, hfresh, geo_api_call]
  · simp [get_ip_geolocation, hfresh, geo_api_call]
  · intro h200 h429
    simp [get_ip_geolocation, hfresh, geo_api_call, h200, h429]

/-- Witness for `geo_stale_refresh_fallback` on the 10-day-old row of the
counterexample, with failure status 503. -/
theorem geo_stale_refresh_fallback_witness :
    GEO_CACHE_DAYS ≤ cache_age_days 864000 0 ∧
    (get_ip_geolocation true 864000
      (some ⟨"203.0.113.5", "Testland", "Testville", none, none, "TL", 0⟩)
      "203.0.113.5" .timeout).fst =
      some (geo_from_cache ⟨"203.0.113.5", "Testland", "Testville", none, none, "TL", 0⟩) ∧
    (get_ip_geolocation true 864000
      (some ⟨"203.0.113.5", "Testland", "Testville", none, none, "TL", 0⟩)
      "203.0.113.5" (.response 503 ⟨"", "", none, none, ""⟩)).fst = none := by
  refine ⟨by decide, ?_, ?_⟩
  · exact (geo_stale_refresh_fallback 864000
      ⟨"203.0.113.5", "Testland", "Testville", none, none, "TL", 0⟩
      "203.0.113.5" ⟨"", "", none, none, ""⟩ 503 (by decide)).1
  · exact (geo_stale_refresh_fallback 864000
      ⟨"203.0.113.5", "Testland", "Testville", none, none, "TL", 0⟩
      "203.0.113.5" ⟨"", "", none, none, ""⟩ 503 (by decide)).2.2.2.2
      (by decide) (by decide)

/-! ## Ingestion parsers (parser.py `parse_pcap`, `parse_access_log`) -/

/-- A normalized request record as produced by the ingestion parsers. -/
structure RequestRecord where
  src_ip : String
  dst_ip : String
  method : String
  url : String
  params : List (String × List String)
  user_agent : String
  body : String
  raw : String
  deriving Repr, DecidableEq

/-- Python `repr` of a string without quote or escape characters (the only
kind the claims exercise), as rendered inside `str(params)`. -/
def py_str_repr (s : String) : String := "\x27" ++ s ++ "\x27"

/-- Python `str` of a list of strings, as rendered inside `str(params)`. -/
def py_list_repr (vs : List String) : String :=
  "[" ++ String.intercalate ", " (vs.map py_str_repr) ++ "]"

/-- Python `str` of a `parse_qs` result dictionary (insertion order). -/
def py_dict_repr (ps : List (String × List String)) : String :=
  "\x7b" ++ String.intercalate ", "
    (ps.map fun p => py_str_repr p.fst ++ ": " ++ py_list_repr p.snd) ++ "\x7d"

/-- Python's `s.split(sep, 1)` as a pair; `none` when `sep` is absent
(mirroring the `sep in s` guard). -/
def split_once (s sep : String) : Option (String × String) :=
  match s.splitOn sep with
  | [] => none
  | [_] => none
  | p :: rest => some (p, String.intercalate sep rest)

/-- One `name=value` field of a query string, as treated by `urllib`'s
`parse_qsl` with `keep_blank_values=True`: fields without `=` are dropped,
the value is everything after the first `=`. -/
def qs_field (part : String) : Option (String × String) :=
  match part.splitOn "=" with
  | [] => none
  | [_] => none
  | k :: rest => some (k, String.intercalate "=" rest)

/-- Model of `urllib.parse.parse_qs(q, keep_blank_values=True)` (an external
library facility): split on `&`, split each field at its first `=`, merge
values of repeated keys in first-occurrence order.  Percent-decoding is not
modelled (no claim involves encoded characters). -/
def parse_qs (q : String) : List (String × List String) :=
  ((q.splitOn "&").filterMap qs_field).foldl
    (fun acc kv =>
      if acc.any (fun p => p.fst == kv.fst) then
        acc.map (fun p => if p.fst == kv.fst then (p.fst, p.snd ++ [kv.snd]) else p)
      else acc ++ [(kv.fst, [kv.snd])]) []

/-- The fields read (via `getattr`, defaulting to `""`) from one decoded
HTTP-request packet in `parse_pcap`; `has_ip` models `hasattr(pkt, "ip")`
and `has_request_full_uri` models `hasattr(http, "request_full_uri")`. -/
structure HttpPacket where
  has_ip : Bool
  ip_src : String
  ip_dst : String
  request_method : String
  host : String
  request_uri : String
  has_request_full_uri : Bool
  request_full_uri : String
  user_agent : String
  file_data : String
  deriving Repr, DecidableEq

/-- The record built for one decoded packet in `parse_pcap` (parser.py):
`raw` is `full + ' ' + str(params) + ' ' + body`. -/
def pcap_record (p : HttpPacket) : RequestRecord :=
  let full :=
    if p.host ≠ "" ∧ p.request_uri ≠ "" then "http://" ++ p.host ++ p.request_uri
    else if p.has_request_full_uri then p.request_full_uri
    else ""
  let params :=
    match split_once p.request_uri "?" with
    | some pq => parse_qs pq.snd
    | none => []
  let body := p.file_data
  { src_ip := if p.has_ip then p.ip_src else ""
    dst_ip := if p.has_ip then p.ip_dst else ""
    method := p.request_method
    url := full
    params := params
    user_agent := p.user_agent
    body := body
    raw := full ++ " " ++ py_dict_repr params ++ " " ++ body }

/-- The named groups of the access-log regular expression for one matched
line of `parse_access_log` (parser.py). -/
structure LogMatch where
  ip : String
  time : String
  method : String
  path : String
  status : String
  size : String
  ref : String
  ua : String
  deriving Repr, DecidableEq

/-- The record built for one matched line in `parse_access_log` (parser.py):
`url` and `raw` are both the request path, `body` is empty. -/
def access_log_record (m : LogMatch) : RequestRecord :=
  let params :=
    match split_once m.path "?" with
    | some pq => parse_qs pq.snd
    | none => []
  { src_ip := m.ip
    dst_ip := ""
    method := m.method
    url := m.path
    params := params
    user_agent := m.ua
    body := ""
    raw := m.path }

/-- **C5 counterexample.**  The access-log parser does not build `raw` as the
URL–parameters–body concatenation: for the matched line
`1.2.3.4 - - [t] "GET /a?x=1 HTTP/1.1" 200 10 "-" "ua"` the record's `raw`
is just `/a?x=1`, not `/a?x=1 \x7b\x27x\x27: [\x271\x27]\x7d `. -/
theorem access_log_raw_is_not_concatenation :
    (access_log_record ⟨"1.2.3.4", "t", "GET", "/a?x=1", "200", "10", "-", "ua"⟩).raw ≠
      (access_log_record ⟨"1.2.3.4", "t", "GET", "/a?x=1", "200", "10", "-", "ua"⟩).url
        ++ " " ++
        py_dict_repr (access_log_record ⟨"1.2.3.4", "t", "GET", "/a?x=1", "200", "10", "-", "ua"⟩).params
        ++ " " ++
        (access_log_record ⟨"1.2.3.4", "t", "GET", "/a?x=1", "200", "10", "-", "ua"⟩).body := by
  decide

/-- **C5 (amended).**  Every record from the capture-file parser has
`raw = url + ' ' + str(params) + ' ' + body`; every record from the
access-log parser instead sets `raw` to the request path alone
(equal to its `url` field, with an empty body). -/
theorem parser_raw_field_shape :
    (∀ p : HttpPacket,
      (pcap_record p).raw = (pcap_record p).url ++ " " ++
        py_dict_repr (pcap_record p).params ++ " " ++ (pcap_record p).body) ∧
    (∀ m : LogMatch,
      (access_log_record m).raw = (access_log_record m).url ∧
      (access_log_record m).body = "") := by
  exact ⟨fun p => rfl, fun m => ⟨rfl, rfl⟩⟩

/-! ## Path sanitization (utils/pcap_utils.py `sanitize_file_path`) -/

/-- A filesystem path as handed to `pathlib.Path`: absoluteness flag and the
list of path components. -/
structure PyPath where
  absolute : Bool
  comps : List String
  deriving Repr, DecidableEq

/-- The lexical normalization performed by `Path.resolve()` on an absolute
path's components: drop empty and `.` components, let `..` pop the previous
component (staying at the root when there is none). -/
def resolve_components (comps : List String) : List String :=
  comps.foldl
    (fun acc c =>
      if c = "" ∨ c = "." then acc
      else if c = ".." then acc.dropLast
      else acc ++ [c]) []

/-- `Path(p).resolve()` against the current working directory `cwd` (given
as already-normalized absolute components). -/
def resolve_path (cwd : List String) (p : PyPath) : List String :=
  if p.absolute then resolve_components p.comps
  else resolve_components (cwd ++ p.comps)

/-- Embedding of `sanitize_file_path` (utils/pcap_utils.py): resolve the
base directory; resolve the candidate (absolute as-is, otherwise joined onto
the resolved base); `full_path.relative_to(base_path_obj)` succeeds exactly
when the base's components are a prefix of the result's, and its failure
raises the directory-traversal `ValueError`. -/
def sanitize_file_path (cwd : List String) (filepath base_path : PyPath) :
    Except String (List String) :=
  let base_path_obj := resolve_path cwd base_path
  let full_path :=
    if filepath.absolute then resolve_components filepath.comps
    else resolve_components (base_path_obj ++ filepath.comps)
  if base_path_obj.isPrefixOf full_path then .ok full_path
  else .error "Invalid file path: directory traversal detected"

/-- **C6.**  For every candidate path (absolute, or relative to the storage
root), `sanitize_file_path` either returns an absolute path lying within the
resolved storage root or raises the directory-traversal error — so a
`..`-escaping path is never returned. -/
theorem sanitize_file_path_stays_in_root (cwd : List String)
    (filepath base_path : PyPath) :
    (∃ full, sanitize_file_path cwd filepath base_path = .ok full ∧
      (resolve_path cwd base_path).isPrefixOf full = true) ∨
    sanitize_file_path cwd filepath base_path =
      .error "Invalid file path: directory traversal detected" := by
  by_cases h : (resolve_path cwd base_path).isPrefixOf
      (if filepath.absolute then resolve_components filepath.comps
       else resolve_components (resolve_path cwd base_path ++ filepath.comps)) = true
  · left
    refine ⟨_, ?_, h⟩
    simp only [sanitize_file_path, h, if_true]
  · right
    simp only [sanitize_file_path]
    rw [if_neg]
    simpa using h

/-! ## Packet-count size estimates (utils/pcap_utils.py
`count_packets_in_pcap`; services/pcap_service.py
`PcapCaptureService.stop_capture`) -/

/-- The size-based last-resort estimate in `count_packets_in_pcap`
(utils/pcap_utils.py): `min(max(1, (file_size - 24) // 128), 1000000)` when
data remains past the 24-byte header, else 0. -/
def count_packets_size_estimate (file_size : Int) : Int :=
  let remaining_size := file_size - 24
  if remaining_size > 0 then min (max 1 (Int.fdiv remaining_size 128)) 1000000
  else 0

/-- The inline estimate in `PcapCaptureService.stop_capture`
(services/pcap_service.py): when the immediate count is 0 and the file holds
data beyond the header, `min(max(1, (file_size - 24) // 64), 1000000)`;
otherwise the immediate count stands. -/
def stop_capture_packet_count (packet_count file_size : Int) : Int :=
  if packet_count = 0 ∧ file_size > 24 then
    min (max 1 (Int.fdiv (file_size - 24) 64)) 1000000
  else packet_count

/-- **C7.**  For every `file_size > 24` the capture-utilities fallback
estimator yields `min(max(1, (file_size - 24) div 128), 1000000)` while the
capture service's inline estimate after a stop (with a zero immediate count)
yields `min(max(1, (file_size - 24) div 64), 1000000)`, in exact integer
arithmetic — two different divisors. -/
theorem packet_count_estimate_divisors (file_size : Int) (h : 24 < file_size) :
    count_packets_size_estimate file_size =
      min (max 1 ((file_size - 24) / 128)) 1000000 ∧
    stop_capture_packet_count 0 file_size =
      min (max 1 ((file_size - 24) / 64)) 1000000 := by
  constructor
  · have hrem : file_size - 24 > 0 := by omega
    simp only [count_packets_size_estimate, if_pos hrem,
      Int.fdiv_eq_ediv _ (by omega : (0 : Int) ≤ 128)]
  · simp only [stop_capture_packet_count,
      Int.fdiv_eq_ediv _ (by omega : (0 : Int) ≤ 64)]
    rw [if_pos ⟨trivial, h⟩]

/-- Witness for `packet_count_estimate_divisors` at a 1000-byte file:
the two estimators give 7 and 15 packets respectively. -/
theorem packet_count_estimate_divisors_witness :
    (24 : Int) < 1000 ∧
    count_packets_size_estimate 1000 = min (max 1 ((1000 - 24) / 128)) 1000000 ∧
    stop_capture_packet_count 0 1000 = min (max 1 ((1000 - 24) / 64)) 1000000 ∧
    count_packets_size_estimate 1000 = 7 ∧
    stop_capture_packet_count 0 1000 = 15 := by
  refine ⟨by decide, (packet_count_estimate_divisors 1000 (by decide)).1,
    (packet_count_estimate_divisors 1000 (by decide)).2, by decide, by decide⟩

/-! ## AI-service rate limiter (services/gemini_service.py
`GeminiThreatIntelligence._check_rate_limit`) -/

/-- The limiter's mutable state: `request_count` and `request_window_start`
(epoch seconds). -/
structure RateLimiterState where
  request_count : Nat
  request_window_start : Int
  deriving Repr, DecidableEq

/-- Embedding of `_check_rate_limit`: given `current_time` (the value of
`time.time()` on entry), returns the seconds slept and the state afterwards.
An idealized sleep of `s` seconds leaves the clock at `current_time + s`,
which the code then stores as the new window start before counting the
current call. -/
def check_rate_limit (limit : Nat) (st : RateLimiterState) (current_time : Int) :
    Int × RateLimiterState :=
  let st1 :=
    if current_time - st.request_window_start ≥ 60 then
      RateLimiterState.mk 0 current_time
    else st
  if limit ≤ st1.request_count then
    let sleep_time := 60 - (current_time - st1.request_window_start)
    if sleep_time > 0 then
      (sleep_time, ⟨0 + 1, current_time + sleep_time⟩)
    else (0, ⟨st1.request_count + 1, st1.request_window_start⟩)
  else (0, ⟨st1.request_count + 1, st1.request_window_start⟩)

/-- Repeated `_check_rate_limit` calls at the given clock times, collecting
each call's sleep duration. -/
def run_rate_limit_calls (limit : Nat) (st : RateLimiterState) :
    List Int → List Int × RateLimiterState
  | [] => ([], st)
  | t :: ts =>
    let r := check_rate_limit limit st t
    let rest := run_rate_limit_calls limit r.snd ts
    (r.fst :: rest.fst, rest.snd)

/-- One within-window call with budget remaining: no sleep, count + 1. -/
theorem check_rate_limit_step (limit k : Nat) (t0 t : Int) (hk : k < limit)
    (ht0 : t0 ≤ t) (ht : t - t0 < 60) :
    check_rate_limit limit ⟨k, t0⟩ t = (0, ⟨k + 1, t0⟩) := by
  have h1 : ¬ (t - t0 ≥ 60) := by omega
  have h2 : ¬ (limit ≤ k) := Nat.not_le.mpr hk
  simp [check_rate_limit, h1, h2]

/-- Within-window calls from count `k` with budget for all of them:
no call sleeps and the count advances by the number of calls. -/
theorem run_rate_limit_calls_no_block (limit : Nat) (t0 : Int) :
    ∀ (times : List Int) (k : Nat), k + times.length ≤ limit →
      (∀ t ∈ times, t0 ≤ t ∧ t - t0 < 60) →
      run_rate_limit_calls limit ⟨k, t0⟩ times =
        (List.replicate times.length 0, ⟨k + times.length, t0⟩) := by
  intro times
  induction times with
  | nil => intro k _ _; simp [run_rate_limit_calls]
  | cons t ts ih =>
    intro k hlen hin
    have hbound := hin t (by simp)
    have hstep : check_rate_limit limit ⟨k, t0⟩ t = (0, ⟨k + 1, t0⟩) :=
      check_rate_limit_step limit k t0 t (by simp at hlen; omega)
        hbound.1 hbound.2
    have hrest := ih (k + 1) (by simp at hlen ⊢; omega)
      (fun u hu => hin u (by simp [hu]))
    simp only [run_rate_limit_calls, hstep, hrest, List.length_cons,
      List.replicate, Prod.mk.injEq, RateLimiterState.mk.injEq]
    exact ⟨trivial, by omega, trivial⟩

/-- **C8.**  From a fresh window starting at `t0`, the limiter permits
exactly `limit` calls within the window `[t0, t0 + 60)` with zero sleep
(counting each), and once that budget is exhausted the next call inside the
window sleeps exactly the remainder `60 - (t - t0)` of the window before
proceeding, after which the counter is reset (holding only that call) and
the window restarts at `t0 + 60`. -/
theorem rate_limiter_window_behavior (limit : Nat) (t0 : Int) (times : List Int)
    (hin : ∀ t ∈ times, t0 ≤ t ∧ t - t0 < 60) (hlen : times.length ≤ limit)
    (t : Int) (ht0 : t0 ≤ t) (ht : t - t0 < 60) :
    ((run_rate_limit_calls limit ⟨0, t0⟩ times).fst =
        List.replicate times.length 0 ∧
      (run_rate_limit_calls limit ⟨0, t0⟩ times).snd = ⟨times.length, t0⟩) ∧
    (times.length = limit →
      (check_rate_limit limit (run_rate_limit_calls limit ⟨0, t0⟩ times).snd t).fst
          = 60 - (t - t0) ∧
        0 < 60 - (t - t0) ∧
        (check_rate_limit limit (run_rate_limit_calls limit ⟨0, t0⟩ times).snd t).snd
          = ⟨1, t0 + 60⟩) := by
  have hrun := run_rate_limit_calls_no_block limit t0 times 0
    (by omega) hin
  refine ⟨⟨by rw [hrun], by rw [hrun]; simp⟩, ?_⟩
  intro hfull
  rw [hrun]
  have h1 : ¬ (t - t0 ≥ 60) := by omega
  have h2 : limit ≤ times.length := by omega
  have h3 : (60 : Int) - (t - t0) > 0 := by omega
  simp [check_rate_limit, h1, h2, h3, RateLimiterState.mk.injEq]
  omega

/-- Witness for `rate_limiter_window_behavior`: budget 2, calls at 5 and 30
in the window starting at 0, then a call at 59 that sleeps 1 second. -/
theorem rate_limiter_window_behavior_witness :
    (∀ t ∈ [(5 : Int), 30], (0 : Int) ≤ t ∧ t - 0 < 60) ∧
    ([(5 : Int), 30].length ≤ 2) ∧ ((0 : Int) ≤ 59) ∧ ((59 : Int) - 0 < 60) ∧
    (run_rate_limit_calls 2 ⟨0, 0⟩ [(5 : Int), 30]).fst = [0, 0] ∧
    (check_rate_limit 2 (run_rate_limit_calls 2 ⟨0, 0⟩ [(5 : Int), 30]).snd 59).fst = 1 ∧
    (check_rate_limit 2 (run_rate_limit_calls 2 ⟨0, 0⟩ [(5 : Int), 30]).snd 59).snd = ⟨1, 60⟩ := by
  have h := rate_limiter_window_behavior 2 0 [(5 : Int), 30]
    (by decide) (by decide) 59 (by decide) (by decide)
  refine ⟨by decide, by decide, by decide, by decide, ?_, ?_, ?_⟩
  · exact h.1.1
  · simpa using (h.2 (by decide)).1
  · simpa using (h.2 (by decide)).2.2

/-! ## Upload processing loop and endpoint (app.py `upload`) -/

/-- Summary dictionary appended to `new_alerts` for each finding during
upload processing. -/
structure NewAlertSummary where
  attack : String
  confidence : Int
  priority : String
  src_ip : String
  deriving Repr, DecidableEq

/-- Accumulated state of the upload-processing loop: the store, the
per-upload correlation list, and the created-alert summaries. -/
structure UploadState where
  db : DB
  recent_login_attempts : List RequestRecord
  new_alerts : List NewAlertSummary
  deriving Repr, DecidableEq

/-- Handling of one finding `(note, conf)` inside the upload loop: derive
the priority, insert the `AlertDocument`, record the summary, and evaluate
the auto-block policy for the record's source IP. -/
def process_finding (threshold : Nat) (windowHours now : Int) (r : RequestRecord)
    (st : UploadState) (f : String × Int) : UploadState :=
  let priority := get_priority f.snd
  let alert_doc := AlertDocument.create now f.fst r.url r.src_ip f.snd r.raw
    r.dst_ip r.method (py_dict_repr r.params) r.user_agent none "new"
    (some priority) ""
  let db1 := { st.db with alerts := st.db.alerts ++ [alert_doc] }
  let db2 := (should_auto_block threshold windowHours now db1 r.src_ip).db
  { db := db2
    recent_login_attempts := st.recent_login_attempts
    new_alerts := st.new_alerts ++ [⟨f.fst, f.snd, priority, r.src_ip⟩] }

/-- Handling of one request record in the upload loop (app.py `upload`):
records whose source IP is whitelisted or blocked are skipped before any
detector runs; otherwise the detection engine `run_all` (whose rule set
lives outside this repository and is therefore universally quantified)
produces findings that become alerts, and may extend the correlation list. -/
def process_record (run_all : RequestRecord → List RequestRecord →
      List (String × Int) × List RequestRecord)
    (threshold : Nat) (windowHours now : Int) (st : UploadState)
    (r : RequestRecord) : UploadState :=
  if check_ip_whitelisted st.db r.src_ip ∨ check_ip_blocked st.db r.src_ip then st
  else
    let res := run_all r st.recent_login_attempts
    res.fst.foldl (process_finding threshold windowHours now r)
      { st with recent_login_attempts := res.snd }

/-- The whole record loop of the upload endpoint, starting from an empty
correlation list and no created alerts. -/
def process_records (run_all : RequestRecord → List RequestRecord →
      List (String × Int) × List RequestRecord)
    (threshold : Nat) (windowHours now : Int) (db : DB)
    (records : List RequestRecord) : UploadState :=
  records.foldl (process_record run_all threshold windowHours now) ⟨db, [], []⟩

/-- **C9.**  During upload processing a record whose source IP has an active
Blocklist-Entry is skipped entirely — the loop state (store, correlation
list, created alerts) is unchanged for every possible detector behavior —
exactly as it is for a whitelisted IP. -/
theorem blocked_ip_record_skipped
    (run_all : RequestRecord → List RequestRecord →
      List (String × Int) × List RequestRecord)
    (threshold : Nat) (windowHours now : Int) (st : UploadState)
    (r : RequestRecord)
    (hblocked : check_ip_blocked st.db r.src_ip = true) :
    process_record run_all threshold windowHours now st r = st ∧
    (∀ st2 : UploadState, check_ip_whitelisted st2.db r.src_ip = true →
      process_record run_all threshold windowHours now st2 r = st2) := by
  constructor
  · simp [process_record, hblocked]
  · intro st2 hwhite
    simp [process_record, hwhite]

/-- Witness for `blocked_ip_record_skipped`: an actively blocked source IP
and a detector that would report a high-confidence finding; the loop state
is untouched. -/
theorem blocked_ip_record_skipped_witness :
    check_ip_blocked
      (DB.mk [] [⟨"203.0.113.9", "Manual block", false, 0, true⟩] [])
      "203.0.113.9" = true ∧
    process_record (fun r l => ([("SQL Injection", 95)], l ++ [r])) 5 1 0
      ⟨DB.mk [] [⟨"203.0.113.9", "Manual block", false, 0, true⟩] [], [], []⟩
      ⟨"203.0.113.9", "10.0.0.1", "GET", "/a", [], "ua", "", "/a"⟩ =
      ⟨DB.mk [] [⟨"203.0.113.9", "Manual block", false, 0, true⟩] [], [], []⟩ := by
  refine ⟨by decide, ?_⟩
  exact (blocked_ip_record_skipped
    (fun r l => ([("SQL Injection", 95)], l ++ [r])) 5 1 0
    ⟨DB.mk [] [⟨"203.0.113.9", "Manual block", false, 0, true⟩] [], [], []⟩
    ⟨"203.0.113.9", "10.0.0.1", "GET", "/a", [], "ua", "", "/a"⟩ (by decide)).1

/-- Outcome of parsing the saved upload. -/
inductive ParseOutcome where
  | ok (records : List RequestRecord)
  | exn (msg : String)
  deriving Repr, DecidableEq

/-- The inputs determining one run of the upload endpoint: request shape
(`has_file`, `filename`, `content_length`), whether `f.save(fname)`
succeeds (with the error text if not), and the parse outcome. -/
structure UploadRequest where
  has_file : Bool
  filename : String
  content_length : Nat
  save_ok : Bool
  save_error : String
  parsed : ParseOutcome
  deriving Repr, DecidableEq

/-- Observable outcome of the upload endpoint: HTTP status, JSON `error`
text, `alerts_count` on success, and whether the file saved into `uploads/`
is still on disk afterwards. -/
structure UploadResponse where
  status : Nat
  error : Option String
  alerts_count : Option Nat
  file_on_disk : Bool
  deriving Repr, DecidableEq

/-- Python's `str.split(sep)` on characters (model of the stdlib facility,
structurally recursive so that concrete witnesses evaluate). -/
def split_on_char (sep : Char) : List Char → List (List Char)
  | [] => [[]]
  | c :: cs =>
    let rest := split_on_char sep cs
    if c = sep then [] :: rest
    else
      match rest with
      | [] => [[c]]
      | r :: rs => (c :: r) :: rs

/-- Python's `filename.lower().split('.')[-1]`. -/
def file_extension (filename : String) : String :=
  String.mk ((split_on_char '.' (filename.data.map Char.toLower)).getLastD [])

/-- Embedding of the upload endpoint (app.py `upload`): request validation
(file presence, then the `content_length` size check), then the save, then
extension validation (removing the saved file on failure), then parsing;
a parse error or an empty record list rejects the upload while the saved
file stays on disk; otherwise the records are processed. -/
def upload (run_all : RequestRecord → List RequestRecord →
      List (String × Int) × List RequestRecord)
    (threshold : Nat) (windowHours now : Int) (db : DB)
    (req : UploadRequest) : UploadResponse :=
  if req.has_file = false ∨ req.filename = "" then
    ⟨400, some "No file provided", none, false⟩
  else if req.content_length ≠ 0 ∧ 100 * 1024 * 1024 < req.content_length then
    ⟨400, some "File size exceeds 100MB", none, false⟩
  else if req.save_ok = false then
    ⟨500, some ("Cannot save file: " ++ req.save_error), none, false⟩
  else if file_extension req.filename ∈ ["pcap", "pcapng", "log", "txt"] then
    match req.parsed with
    | .exn msg => ⟨500, some ("Error parsing file: " ++ msg), none, true⟩
    | .ok [] => ⟨400, some "No records found in file", none, true⟩
    | .ok records =>
      ⟨200, none,
        some (process_records run_all threshold windowHours now db
          records).new_alerts.length, true⟩
  else ⟨400, some "Invalid file type. Allowed: pcap, pcapng, log, txt", none, false⟩

/-- **C10 counterexample.**  Validation precedes the save: a request whose
file reports a 200 MB `content_length` is rejected 400 by the size
validation with no file ever saved to `uploads/` — so the endpoint does not
save the incoming file before *any* validation. -/
theorem upload_size_rejection_saves_nothing :
    upload (fun _ l => ([], l)) 5 1 0 ⟨[], [], []⟩
      ⟨true, "big.log", 200 * 1024 * 1024, true, "", .ok []⟩ =
      ⟨400, some "File size exceeds 100MB", none, false⟩ := by
  decide

/-- **C10 (amended).**  After the request-shape and size validations pass,
the upload endpoint saves the file before extension and content validation;
the saved file is removed only on the invalid-extension 400 path, so an
upload rejected 400 for containing zero parseable records — and any parse
failure or success — leaves the saved file on disk in `uploads/`. -/
theorem upload_saved_file_retention
    (run_all : RequestRecord → List RequestRecord →
      List (String × Int) × List RequestRecord)
    (threshold : Nat) (windowHours now : Int) (db : DB) (req : UploadRequest)
    (hfile : req.has_file = true) (hname : req.filename ≠ "")
    (hsize : ¬ (req.content_length ≠ 0 ∧ 100 * 1024 * 1024 < req.content_length))
    (hsave : req.save_ok = true) :
    (file_extension req.filename ∉ ["pcap", "pcapng", "log", "txt"] →
      upload run_all threshold windowHours now db req =
        ⟨400, some "Invalid file type. Allowed: pcap, pcapng, log, txt",
          none, false⟩) ∧
    (file_extension req.filename ∈ ["pcap", "pcapng", "log", "txt"] →
      req.parsed = .ok [] →
      upload run_all threshold windowHours now db req =
        ⟨400, some "No records found in file", none, true⟩) ∧
    (file_extension req.filename ∈ ["pcap", "pcapng", "log", "txt"] →
      (upload run_all threshold windowHours now db req).file_on_disk = true) := by
  refine ⟨?_, ?_, ?_⟩
  · intro hext
    simp [upload, hfile, hname, hsize, hsave, hext]
  · intro hext hempty
    simp [upload, hfile, hname, hsize, hsave, hext, hempty]
  · intro hext
    cases hp : req.parsed with
    | exn msg => simp [upload, hfile, hname, hsize, hsave, hext, hp]
    | ok records =>
      cases records with
      | nil => simp [upload, hfile, hname, hsize, hsave, hext, hp]
      | cons a as => simp [upload, hfile, hname, hsize, hsave, hext, hp]

/-- Witness for `upload_saved_file_retention`: an upload of `empty.log`
that parses to zero records is rejected 400 with the saved file retained. -/
theorem upload_saved_file_retention_witness :
    (true = true ∧ ("empty.log" : String) ≠ "" ∧
      ¬ ((0 : Nat) ≠ 0 ∧ 100 * 1024 * 1024 < (0 : Nat)) ∧ true = true) ∧
    file_extension "empty.log" ∈ ["pcap", "pcapng", "log", "txt"] ∧
    upload (fun _ l => ([], l)) 5 1 0 ⟨[], [], []⟩
      ⟨true, "empty.log", 0, true, "", .ok []⟩ =
      ⟨400, some "No records found in file", none, true⟩ := by
  refine ⟨⟨rfl, by decide, by decide, rfl⟩, by decide, ?_⟩
  exact (upload_saved_file_retention (fun _ l => ([], l)) 5 1 0 ⟨[], [], []⟩
    ⟨true, "empty.log", 0, true, "", .ok []⟩
    rfl (by decide) (by decide) rfl).2.1 (by decide) rfl

/-- Witness for `priority_derivation_correct` at confidence 90. -/
theorem priority_derivation_correct_witness :
    (0 : Int) ≤ 90 ∧ (90 : Int) ≤ 100 ∧
    get_priority 90 = "critical" ∧
    (AlertDocument.create 0 "sqli" "/a" "1.2.3.4" 90 "r" "" "" "" ""
      none "new" none "").priority = get_priority 90 := by
  refine ⟨by decide, by decide, ?_, ?_⟩
  · exact ((priority_derivation_correct 90 (by decide) (by decide)).1.1 (by decide))
  · exact ((priority_derivation_correct 90 (by decide) (by decide)).2.2
      0 "sqli" "/a" "1.2.3.4" "r" "" "" "" "" none "new" "")

end Rakshak
